import Mathlib

/-!
Verification of the identifier-normalization and response-shaping logic of
`src/main.py` (a Flask wrapper around an external video extraction library).

Strings are modelled as `List Char`.  The three regular expressions of
`extract_video_id` are embedded by hand with Python `re` semantics:

* `re.match(r'^[0-9A-Za-z_-]{11}$', s)` anchors at the start, and the final
  `$` matches either at the end of the string or just before a single
  trailing newline (Python semantics of `$`, as opposed to `\Z`).
* `re.search(pat, s)` returns the leftmost position at which `pat` matches;
  within an alternation the alternatives are tried in written order.
* In pattern 2 the unescaped dot of `youtu.be` matches any character
  except a newline.

The external extraction capability (`yt_dlp.YoutubeDL.extract_info`) is a
parameter of the gateway model: it either returns a structured info record,
raises a `DownloadError` with some message, or raises any other exception
whose stringification is some message.
-/

/-- Membership in the video-id alphabet `[0-9A-Za-z_-]`. -/
def isVidChar (c : Char) : Bool :=
  (('0' ≤ c) && (c ≤ '9')) || (('A' ≤ c) && (c ≤ 'Z')) ||
  (('a' ≤ c) && (c ≤ 'z')) || (c == '_') || (c == '-')

/-- Matching of `[0-9A-Za-z_-]{n}` at the head of a list: returns the
consumed characters when the first `n` characters exist and are all in the
alphabet, and `none` otherwise. -/
def takeVid : Nat → List Char → Option (List Char)
  | 0, _ => some []
  | _ + 1, [] => none
  | n + 1, c :: rest =>
    if isVidChar c then
      match takeVid n rest with
      | some v => some (c :: v)
      | none => none
    else none

/-- Python `re.match(r'^[0-9A-Za-z_-]{11}$', l)` viewed as a Bool: the whole
string is 11 alphabet characters, or 11 alphabet characters followed by one
trailing newline (Python `$` also matches just before a final newline). -/
def matchFullId (l : List Char) : Bool :=
  ((l.length == 11) && l.all isVidChar) ||
  ((l.length == 12) && ((l.take 11).all isVidChar) && ((l.drop 11) == ['\n']))

/-- Attempt of pattern 1, `(?:v=|\/)([0-9A-Za-z_-]{11}).*`, at a fixed
position (the trailing `.*` always succeeds and constrains nothing).
Alternatives `v=` and `/` are tried in this order. -/
def tryPat1At (l : List Char) : Option (List Char) :=
  match
    (match l with
     | 'v' :: '=' :: rest => takeVid 11 rest
     | _ => none) with
  | some v => some v
  | none =>
    match l with
    | '/' :: rest => takeVid 11 rest
    | _ => none

/-- Attempt of pattern 2, `(?:embed\/|v\/|youtu.be\/)([0-9A-Za-z_-]{11})`,
at a fixed position; the dot in `youtu.be` matches any non-newline
character. -/
def tryPat2At (l : List Char) : Option (List Char) :=
  match
    (match l with
     | 'e' :: 'm' :: 'b' :: 'e' :: 'd' :: '/' :: rest => takeVid 11 rest
     | _ => none) with
  | some v => some v
  | none =>
    match
      (match l with
       | 'v' :: '/' :: rest => takeVid 11 rest
       | _ => none) with
    | some v => some v
    | none =>
      match l with
      | 'y' :: 'o' :: 'u' :: 't' :: 'u' :: c :: 'b' :: 'e' :: '/' :: rest =>
        if c == '\n' then none else takeVid 11 rest
      | _ => none

/-- Attempt of pattern 3, `(?:watch\?v=)([0-9A-Za-z_-]{11})`, at a fixed
position. -/
def tryPat3At (l : List Char) : Option (List Char) :=
  match l with
  | 'w' :: 'a' :: 't' :: 'c' :: 'h' :: '?' :: 'v' :: '=' :: rest => takeVid 11 rest
  | _ => none

/-- The leftmost-match scan of `re.search` for a given per-position
attempt. -/
def searchWith (try1 : List Char → Option (List Char)) : List Char → Option (List Char)
  | [] => none
  | c :: rest =>
    match try1 (c :: rest) with
    | some v => some v
    | none => searchWith try1 rest

/-- Embedding of `extract_video_id` (src/main.py lines 21-39): full-match
check first, then the three search patterns in order, else `none`. -/
def extract_video_id (url_or_id : List Char) : Option (List Char) :=
  if matchFullId url_or_id then some url_or_id
  else
    match searchWith tryPat1At url_or_id with
    | some v => some v
    | none =>
      match searchWith tryPat2At url_or_id with
      | some v => some v
      | none => searchWith tryPat3At url_or_id

/-- Test whether the first list occurs at the head of the second one. -/
def startsList : List Char → List Char → Bool
  | [], _ => true
  | _ :: _, [] => false
  | p :: ps, c :: cs => (p == c) && startsList ps cs

/-- Python's `pat in s` substring test on strings. -/
def occursIn (pat : List Char) : List Char → Bool
  | [] => pat.isEmpty
  | c :: rest => startsList pat (c :: rest) || occursIn pat rest

/-- One entry of the `formats` list of an extraction result; only its
`url` key is ever read, and it may be absent. -/
structure YdlFormat where
  url : Option (List Char)
deriving DecidableEq

/-- The structured info record returned by the extraction capability;
every key read by `get_youtube_stream_url` is optional. -/
structure YdlInfo where
  url : Option (List Char)
  formats : Option (List YdlFormat)
  title : Option (List Char)
  description : Option (List Char)
  channel : Option (List Char)
  duration : Option Int
  thumbnail : Option (List Char)
deriving DecidableEq

/-- Outcome of one call to the extraction capability
(`ydl.extract_info`): a structured record, a `DownloadError` carrying a
message, or any other exception carrying its stringification. -/
inductive YdlOutcome where
  | info (i : YdlInfo)
  | downloadError (msg : List Char)
  | otherError (msg : List Char)
deriving DecidableEq

/-- The metadata record built on the success path
(src/main.py lines 73-79). -/
structure VideoInfo where
  title : List Char
  description : List Char
  channel_name : List Char
  duration : Int
  thumbnail : List Char
deriving DecidableEq

/-- Defensive metadata extraction with defaults (lines 74-78). -/
def mkVideoInfo (info : YdlInfo) : VideoInfo :=
  { title := info.title.getD "Unknown".data
    description := info.description.getD []
    channel_name := info.channel.getD "Unknown".data
    duration := info.duration.getD 0
    thumbnail := info.thumbnail.getD [] }

/-- The watch URL constructed for a video id (line 55). -/
def watchUrl (video_id : List Char) : List Char :=
  "https://www.youtube.com/watch?v=".data ++ video_id

/-- Embedding of `get_youtube_stream_url` (lines 41-93).  The external
capability is the parameter `extract_info`, applied to the constructed
watch URL.  `formats[0]['url']` with the key absent raises
`KeyError('url')`, which the generic `except Exception` handler at line 92
turns into the message `Unexpected error: 'url'` (Python's
`str(KeyError('url'))` is `"'url'"`). -/
def get_youtube_stream_url (extract_info : List Char → YdlOutcome)
    (video_id : List Char) :
    Option (List Char) × Option VideoInfo × Option (List Char) :=
  match extract_info (watchUrl video_id) with
  | .info info =>
    match info.url with
    | some u => (some u, some (mkVideoInfo info), none)
    | none =>
      match info.formats.getD [] with
      | [] => (none, none, some "No stream URL found in video info".data)
      | f :: _ =>
        match f.url with
        | some u => (some u, some (mkVideoInfo info), none)
        | none => (none, none, some ("Unexpected error: ".data ++ "'url'".data))
  | .downloadError msg =>
    if occursIn "Video unavailable".data msg then
      (none, none, some "Video is unavailable or has been removed".data)
    else if occursIn "Private video".data msg then
      (none, none, some "This video is private".data)
    else if occursIn "Sign in to confirm your age".data msg then
      (none, none, some "Age-restricted video".data)
    else
      (none, none, some ("Error downloading video information: ".data ++ msg))
  | .otherError msg => (none, none, some ("Unexpected error: ".data ++ msg))

/-- The JSON envelope and HTTP status produced by the route handler; keys
absent from a branch's JSON body are `none`. -/
structure HandlerResponse where
  status : Nat
  success : Bool
  video_id : Option (List Char)
  stream_url : Option (List Char)
  video_info : Option VideoInfo
  cache_info : Option (List Char)
  error : Option (List Char)
deriving DecidableEq

/-- Embedding of the route handler `get_stream` (lines 100-138), taking
the already percent-decoded path (the `unquote` of line 107 happens
before this logic).  Python truthiness is modelled exactly: `if not
video_id` is also taken for an empty string, and `if error` is skipped
for an empty message. -/
def get_stream (extract_info : List Char → YdlOutcome)
    (decoded_path : List Char) : HandlerResponse :=
  match extract_video_id decoded_path with
  | none =>
    { status := 400, success := false, video_id := none, stream_url := none,
      video_info := none, cache_info := none,
      error := some "Invalid YouTube video ID or URL".data }
  | some vid =>
    if vid.isEmpty then
      { status := 400, success := false, video_id := none, stream_url := none,
        video_info := none, cache_info := none,
        error := some "Invalid YouTube video ID or URL".data }
    else
      match get_youtube_stream_url extract_info vid with
      | (stream_url, video_info, error) =>
        match error with
        | some e =>
          if e.isEmpty then
            { status := 200, success := true, video_id := some vid,
              stream_url := stream_url, video_info := video_info,
              cache_info := some "Stream URL expires after maximum 12 hours".data,
              error := none }
          else
            { status := 404, success := false, video_id := some vid,
              stream_url := none, video_info := none, cache_info := none,
              error := some e }
        | none =>
          { status := 200, success := true, video_id := some vid,
            stream_url := stream_url, video_info := video_info,
            cache_info := some "Stream URL expires after maximum 12 hours".data,
            error := none }

/-- The alphabet matcher returns the whole list when asked for exactly its
length and every character is in the alphabet. -/
theorem takeVid_of_length (l : List Char) (hvid : l.all isVidChar = true) :
    takeVid l.length l = some l := by
  induction l with
  | nil => rfl
  | cons c rest ih =>
    simp only [List.all_cons, Bool.and_eq_true] at hvid
    simp [takeVid, hvid.1, ih hvid.2]

/-- The full-match test fails on any string longer than 12 characters. -/
theorem matchFullId_long (l : List Char) (h : 12 < l.length) :
    matchFullId l = false := by
  have h1 : (l.length == 11) = false := by simp; omega
  have h2 : (l.length == 12) = false := by simp; omega
  simp [matchFullId, h1, h2]

/-- C1: for every canonical 11-character video id, normalizing the watch
URL, the short youtu.be URL, and the embed URL built from it yields the id
back (round-trip of URL construction and `extract_video_id`). -/
theorem extract_video_id_url_roundtrip (id : List Char)
    (h11 : id.length = 11) (hvid : id.all isVidChar = true) :
    extract_video_id ("https://www.youtube.com/watch?v=".data ++ id) = some id ∧
    extract_video_id ("https://youtu.be/".data ++ id) = some id ∧
    extract_video_id ("https://www.youtube.com/embed/".data ++ id) = some id := by
  have hx : takeVid 11 id = some id := h11 ▸ takeVid_of_length id hvid
  have eslash : tryPat1At ('/' :: id) = takeVid 11 id := rfl
  refine ⟨?_, ?_, ?_⟩
  · have hlen : ("https://www.youtube.com/watch?v=".data ++ id).length = 43 := by
      rw [List.length_append, h11]; decide
    have hfull : matchFullId ("https://www.youtube.com/watch?v=".data ++ id) = false :=
      matchFullId_long _ (by rw [hlen]; norm_num)
    have e2 : tryPat1At ('v' :: '=' :: id) =
        (match takeVid 11 id with | some v => some v | none => none) := rfl
    have e2' : tryPat1At ('v' :: '=' :: id) = some id := by rw [e2, hx]
    have hsearch : searchWith tryPat1At
        ("https://www.youtube.com/watch?v=".data ++ id) = some id := by
      have e1 : searchWith tryPat1At ("https://www.youtube.com/watch?v=".data ++ id) =
          searchWith tryPat1At ('v' :: '=' :: id) := rfl
      rw [e1, searchWith, e2']
    rw [extract_video_id, hfull, hsearch]
    simp
  · have hlen : ("https://youtu.be/".data ++ id).length = 28 := by
      rw [List.length_append, h11]; decide
    have hfull : matchFullId ("https://youtu.be/".data ++ id) = false :=
      matchFullId_long _ (by rw [hlen]; norm_num)
    have hsearch : searchWith tryPat1At ("https://youtu.be/".data ++ id) = some id := by
      have e1 : searchWith tryPat1At ("https://youtu.be/".data ++ id) =
          searchWith tryPat1At ('/' :: id) := rfl
      rw [e1, searchWith, eslash, hx]
    rw [extract_video_id, hfull, hsearch]
    simp
  · have hlen : ("https://www.youtube.com/embed/".data ++ id).length = 41 := by
      rw [List.length_append, h11]; decide
    have hfull : matchFullId ("https://www.youtube.com/embed/".data ++ id) = false :=
      matchFullId_long _ (by rw [hlen]; norm_num)
    have hsearch : searchWith tryPat1At
        ("https://www.youtube.com/embed/".data ++ id) = some id := by
      have e1 : searchWith tryPat1At ("https://www.youtube.com/embed/".data ++ id) =
          searchWith tryPat1At ('/' :: id) := rfl
      rw [e1, searchWith, eslash, hx]
    rw [extract_video_id, hfull, hsearch]
    simp

/-- Witness for C1 at the concrete id dQw4w9WgXcQ. -/
theorem extract_video_id_url_roundtrip_witness :
    extract_video_id ("https://www.youtube.com/watch?v=".data ++ "dQw4w9WgXcQ".data) =
      some "dQw4w9WgXcQ".data ∧
    extract_video_id ("https://youtu.be/".data ++ "dQw4w9WgXcQ".data) =
      some "dQw4w9WgXcQ".data ∧
    extract_video_id ("https://www.youtube.com/embed/".data ++ "dQw4w9WgXcQ".data) =
      some "dQw4w9WgXcQ".data :=
  extract_video_id_url_roundtrip "dQw4w9WgXcQ".data (by decide) (by decide)

/-- C2: every string that is exactly 11 characters drawn from the alphabet
(a full match of the canonical-id pattern) is returned unchanged. -/
theorem extract_video_id_canonical_id_unchanged (s : List Char)
    (h11 : s.length = 11) (hvid : s.all isVidChar = true) :
    extract_video_id s = some s := by
  have hfull : matchFullId s = true := by simp [matchFullId, h11, hvid]
  rw [extract_video_id, hfull]
  simp

/-- Witness for C2 at the concrete id dQw4w9WgXcQ. -/
theorem extract_video_id_canonical_id_unchanged_witness :
    extract_video_id "dQw4w9WgXcQ".data = some "dQw4w9WgXcQ".data :=
  extract_video_id_canonical_id_unchanged "dQw4w9WgXcQ".data (by decide) (by decide)

/-- C3: a download-error failure is classified by substring of its message
in priority order (unavailable, then private, then age-restricted, then a
generic message carrying the original text), and any other exception class
yields an unexpected-error message carrying the stringified cause. -/
theorem download_error_classification (extract_info : List Char → YdlOutcome)
    (video_id msg : List Char) :
    (extract_info (watchUrl video_id) = .downloadError msg →
      (occursIn "Video unavailable".data msg = true →
        get_youtube_stream_url extract_info video_id =
          (none, none, some "Video is unavailable or has been removed".data)) ∧
      (occursIn "Video unavailable".data msg = false →
       occursIn "Private video".data msg = true →
        get_youtube_stream_url extract_info video_id =
          (none, none, some "This video is private".data)) ∧
      (occursIn "Video unavailable".data msg = false →
       occursIn "Private video".data msg = false →
       occursIn "Sign in to confirm your age".data msg = true →
        get_youtube_stream_url extract_info video_id =
          (none, none, some "Age-restricted video".data)) ∧
      (occursIn "Video unavailable".data msg = false →
       occursIn "Private video".data msg = false →
       occursIn "Sign in to confirm your age".data msg = false →
        get_youtube_stream_url extract_info video_id =
          (none, none, some ("Error downloading video information: ".data ++ msg)))) ∧
    (extract_info (watchUrl video_id) = .otherError msg →
      get_youtube_stream_url extract_info video_id =
        (none, none, some ("Unexpected error: ".data ++ msg))) := by
  constructor
  · intro hcap
    refine ⟨?_, ?_, ?_, ?_⟩
    · intro h1; simp [get_youtube_stream_url, hcap, h1]
    · intro h1 h2; simp [get_youtube_stream_url, hcap, h1, h2]
    · intro h1 h2 h3; simp [get_youtube_stream_url, hcap, h1, h2, h3]
    · intro h1 h2 h3; simp [get_youtube_stream_url, hcap, h1, h2, h3]
  · intro hcap; simp [get_youtube_stream_url, hcap]

/-- Witness for C3: a download error mentioning a private video is mapped
to the private reason. -/
theorem download_error_classification_witness :
    get_youtube_stream_url (fun _ => YdlOutcome.downloadError "ERROR: Private video".data)
      "dQw4w9WgXcQ".data = (none, none, some "This video is private".data) :=
  ((download_error_classification _ "dQw4w9WgXcQ".data "ERROR: Private video".data).1
      rfl).2.1 (by decide) (by decide)

/-- C4: the stream URL is the top-level url field when present, otherwise
the url of the first entry of the formats list; when both are missing
(formats absent or empty) the result is the no-stream-URL-found failure.
For the two-format stub of the spec the first format's url is chosen. -/
theorem stream_url_selection (extract_info : List Char → YdlOutcome)
    (video_id : List Char) (info : YdlInfo)
    (hcap : extract_info (watchUrl video_id) = .info info) :
    (∀ u, info.url = some u →
      get_youtube_stream_url extract_info video_id =
        (some u, some (mkVideoInfo info), none)) ∧
    (∀ f rest u, info.url = none → info.formats = some (f :: rest) → f.url = some u →
      get_youtube_stream_url extract_info video_id =
        (some u, some (mkVideoInfo info), none)) ∧
    (info.url = none → (info.formats = none ∨ info.formats = some []) →
      get_youtube_stream_url extract_info video_id =
        (none, none, some "No stream URL found in video info".data)) ∧
    (get_youtube_stream_url
        (fun _ => .info { url := none,
                          formats := some ({ url := some "https://cdn/f0".data } ::
                                           { url := some "https://cdn/f1".data } :: []),
                          title := none, description := none, channel := none,
                          duration := none, thumbnail := none })
        video_id).1 = some "https://cdn/f0".data := by
  refine ⟨?_, ?_, ?_, rfl⟩
  · intro u hu
    simp [get_youtube_stream_url, hcap, hu]
  · intro f rest u h0 hf hfu
    simp [get_youtube_stream_url, hcap, h0, hf, hfu]
  · intro h0 hf
    rcases hf with hf | hf <;> simp [get_youtube_stream_url, hcap, h0, hf]

/-- Witness for C4: a top-level url is preferred. -/
theorem stream_url_selection_witness :
    get_youtube_stream_url
        (fun _ => .info { url := some "https://cdn/top".data, formats := none,
                          title := none, description := none, channel := none,
                          duration := none, thumbnail := none })
        "dQw4w9WgXcQ".data =
      (some "https://cdn/top".data,
       some (mkVideoInfo { url := some "https://cdn/top".data, formats := none,
                           title := none, description := none, channel := none,
                           duration := none, thumbnail := none }), none) :=
  (stream_url_selection
      (fun _ => .info { url := some "https://cdn/top".data, formats := none,
                        title := none, description := none, channel := none,
                        duration := none, thumbnail := none })
      "dQw4w9WgXcQ".data _ rfl).1 "https://cdn/top".data rfl

/-- C5: on a successful extraction the metadata record substitutes the
defaults Unknown for title and channel, the empty string for description
and thumbnail, and 0 for the duration, field by field; in particular the
spec's stub with only a url and a title yields exactly those defaults. -/
theorem video_info_defaults (extract_info : List Char → YdlOutcome)
    (video_id u : List Char) (info : YdlInfo)
    (hcap : extract_info (watchUrl video_id) = .info info) (hu : info.url = some u) :
    get_youtube_stream_url extract_info video_id =
      (some u,
       some { title := info.title.getD "Unknown".data,
              description := info.description.getD [],
              channel_name := info.channel.getD "Unknown".data,
              duration := info.duration.getD 0,
              thumbnail := info.thumbnail.getD [] }, none) ∧
    get_youtube_stream_url
        (fun _ => .info { url := some "https://cdn/stream".data, formats := none,
                          title := some "T".data, description := none, channel := none,
                          duration := none, thumbnail := none }) video_id =
      (some "https://cdn/stream".data,
       some { title := "T".data, description := [], channel_name := "Unknown".data,
              duration := 0, thumbnail := [] }, none) := by
  constructor
  · simp [get_youtube_stream_url, hcap, hu, mkVideoInfo]
  · rfl

/-- Witness for C5 at the spec's stub capability. -/
theorem video_info_defaults_witness :
    get_youtube_stream_url
        (fun _ => .info { url := some "https://cdn/stream".data, formats := none,
                          title := some "T".data, description := none, channel := none,
                          duration := none, thumbnail := none }) "dQw4w9WgXcQ".data =
      (some "https://cdn/stream".data,
       some { title := "T".data, description := [], channel_name := "Unknown".data,
              duration := 0, thumbnail := [] }, none) :=
  (video_info_defaults
      (fun _ => .info { url := some "https://cdn/stream".data, formats := none,
                        title := some "T".data, description := none, channel := none,
                        duration := none, thumbnail := none })
      "dQw4w9WgXcQ".data "https://cdn/stream".data
      { url := some "https://cdn/stream".data, formats := none,
        title := some "T".data, description := none, channel := none,
        duration := none, thumbnail := none } rfl rfl).2

/-- C6: whenever the normalizer derives no canonical id (it returns none
rather than raising, being a total function), the handler answers 400 with
the invalid-input error body for any extraction capability; in particular
this holds for the input "not a url". -/
theorem invalid_input_returns_400 (extract_info : List Char → YdlOutcome)
    (path : List Char) (hnone : extract_video_id path = none) :
    get_stream extract_info path =
      { status := 400, success := false, video_id := none, stream_url := none,
        video_info := none, cache_info := none,
        error := some "Invalid YouTube video ID or URL".data } ∧
    extract_video_id "not a url".data = none := by
  refine ⟨?_, by decide⟩
  simp [get_stream, hnone]

/-- Witness for C6 at the input "not a url". -/
theorem invalid_input_returns_400_witness :
    get_stream (fun _ => YdlOutcome.otherError []) "not a url".data =
      { status := 400, success := false, video_id := none, stream_url := none,
        video_info := none, cache_info := none,
        error := some "Invalid YouTube video ID or URL".data } ∧
    extract_video_id "not a url".data = none :=
  invalid_input_returns_400 (fun _ => YdlOutcome.otherError []) "not a url".data (by decide)

/-- C7: when extraction of a normalized id fails with a download error
classified as a private video, the handler answers 404 with that reason
and the normalized id. -/
theorem private_video_returns_404 (extract_info : List Char → YdlOutcome)
    (path vid msg : List Char)
    (hid : extract_video_id path = some vid) (hne : vid ≠ [])
    (hcap : extract_info (watchUrl vid) = .downloadError msg)
    (hpriv : occursIn "Private video".data msg = true)
    (hunav : occursIn "Video unavailable".data msg = false) :
    get_stream extract_info path =
      { status := 404, success := false, video_id := some vid,
        stream_url := none, video_info := none, cache_info := none,
        error := some "This video is private".data } := by
  have hg : get_youtube_stream_url extract_info vid =
      (none, none, some "This video is private".data) := by
    simp [get_youtube_stream_url, hcap, hunav, hpriv]
  simp [get_stream, hid, hne, hg]

/-- Witness for C7 at a concrete id and a private-video stub capability. -/
theorem private_video_returns_404_witness :
    get_stream (fun _ => YdlOutcome.downloadError "ERROR: Private video".data)
      "dQw4w9WgXcQ".data =
      { status := 404, success := false, video_id := some "dQw4w9WgXcQ".data,
        stream_url := none, video_info := none, cache_info := none,
        error := some "This video is private".data } :=
  private_video_returns_404 _ "dQw4w9WgXcQ".data "dQw4w9WgXcQ".data
    "ERROR: Private video".data (by decide) (by decide) rfl (by decide) (by decide)

/-- C8 evidence: the normalizer does not always produce an 11-character
alphabet string.  On the input consisting of 11 alphabet characters
followed by a newline (reachable as the percent-encoded path
abcdefghijk%0A), the full-match branch accepts because Python's `$` also
matches just before a trailing newline, and the 12-character input is
returned unchanged. -/
theorem canonical_id_invariant_failing_input :
    extract_video_id "abcdefghijk\n".data = some "abcdefghijk\n".data ∧
    ("abcdefghijk\n".data).length = 12 ∧
    ¬ (("abcdefghijk\n".data).length = 11 ∧
       ("abcdefghijk\n".data).all isVidChar = true) := by
  decide

/-- C9: the gateway's result triple always has exactly one of the two
shapes: a success with both the stream URL and the metadata present and no
error, or a failure with neither and a non-empty error message.  (The
model is a total function, so no exception escapes by construction.) -/
theorem get_youtube_stream_url_shape (extract_info : List Char → YdlOutcome)
    (video_id : List Char) :
    (∃ u vi, get_youtube_stream_url extract_info video_id = (some u, some vi, none)) ∨
    (∃ e, get_youtube_stream_url extract_info video_id = (none, none, some e) ∧ e ≠ []) := by
  rcases hcap : extract_info (watchUrl video_id) with info | msg | msg
  · rcases hu : info.url with _ | u
    · rcases hf : info.formats.getD [] with _ | ⟨f, rest⟩
      · exact Or.inr ⟨"No stream URL found in video info".data,
          by simp [get_youtube_stream_url, hcap, hu, hf], by decide⟩
      · rcases hfu : f.url with _ | u
        · exact Or.inr ⟨"Unexpected error: ".data ++ "'url'".data,
            by simp [get_youtube_stream_url, hcap, hu, hf, hfu], by decide⟩
        · exact Or.inl ⟨u, mkVideoInfo info,
            by simp [get_youtube_stream_url, hcap, hu, hf, hfu]⟩
    · exact Or.inl ⟨u, mkVideoInfo info, by simp [get_youtube_stream_url, hcap, hu]⟩
  · right
    simp only [get_youtube_stream_url, hcap]
    split_ifs
    · exact ⟨"Video is unavailable or has been removed".data, rfl, by decide⟩
    · exact ⟨"This video is private".data, rfl, by decide⟩
    · exact ⟨"Age-restricted video".data, rfl, by decide⟩
    · exact ⟨"Error downloading video information: ".data ++ msg, rfl, by simp⟩
  · exact Or.inr ⟨"Unexpected error: ".data ++ msg,
      by simp [get_youtube_stream_url, hcap], by simp⟩

/-- C10: when the top-level url is absent and the first entry of a
non-empty formats list has no url key, the lookup raises KeyError and the
result is the unexpected-error category (message starting with
"Unexpected error: "), distinct from the no-stream-URL reason, and no
later format is consulted. -/
theorem first_format_missing_url_unexpected_error
    (extract_info : List Char → YdlOutcome)
    (video_id : List Char) (info : YdlInfo) (f : YdlFormat) (rest : List YdlFormat)
    (hcap : extract_info (watchUrl video_id) = .info info)
    (h0 : info.url = none) (hf : info.formats = some (f :: rest)) (hfu : f.url = none) :
    get_youtube_stream_url extract_info video_id =
      (none, none, some ("Unexpected error: ".data ++ "'url'".data)) ∧
    startsList "Unexpected error: ".data ("Unexpected error: ".data ++ "'url'".data) = true ∧
    ("Unexpected error: ".data ++ "'url'".data) ≠ "No stream URL found in video info".data := by
  refine ⟨by simp [get_youtube_stream_url, hcap, h0, hf, hfu], by decide, by decide⟩

/-- Witness for C10: first format lacks a url even though a later one has
one; the unexpected-error message is produced. -/
theorem first_format_missing_url_unexpected_error_witness :
    get_youtube_stream_url
        (fun _ => .info { url := none,
                          formats := some ({ url := none } ::
                                           { url := some "https://cdn/f1".data } :: []),
                          title := none, description := none, channel := none,
                          duration := none, thumbnail := none })
        "dQw4w9WgXcQ".data =
      (none, none, some ("Unexpected error: ".data ++ "'url'".data)) :=
  (first_format_missing_url_unexpected_error
      (fun _ => .info { url := none,
                        formats := some ({ url := none } ::
                                         { url := some "https://cdn/f1".data } :: []),
                        title := none, description := none, channel := none,
                        duration := none, thumbnail := none })
      "dQw4w9WgXcQ".data
      { url := none,
        formats := some ({ url := none } ::
                         { url := some "https://cdn/f1".data } :: []),
        title := none, description := none, channel := none,
        duration := none, thumbnail := none }
      { url := none } ({ url := some "https://cdn/f1".data } :: [])
      rfl rfl rfl rfl).1
